import Mathlib

/-!
Shallow embedding of the CRM GraphQL mutation layer of
alx-backend-graphql_crm.

The mutations embedded here are `CreateCustomer.mutate`,
`BulkCreateCustomers.mutate`, `CreateProduct.mutate` and
`CreateOrder.mutate` from `alx_backend_graphql/crm/schema.py`, plus the
duplicate copy of `CreateCustomer.mutate` that lives in
`alx_backend_graphql_crm/crm/tests.py`.

Modelling conventions:
* The Django ORM store is a `Store` value holding the three tables and
  autoincrement counters; `objects.create` appends a row and bumps the
  counter, `objects.get`/`objects.filter` are `find?`/`filter` over the
  row lists.  Primary-key uniqueness of a real database corresponds to
  `Nodup` hypotheses on the id columns where a claim needs them.
* `DecimalField(decimal_places=2)` prices and totals are exact
  fixed-point decimals; they are embedded as integer numbers of cents
  (so 999.99 is `99999`), which is exact decimal arithmetic.
* GraphQL fields the Python code leaves unset default to `null`; for
  `CreateCustomer` the validation-failure branch leaves `errors` unset,
  so that envelope's `errors` field is an `Option (List String)`.
* Python truthiness on `input.phone` (`None` and `""` are falsy) is
  `phoneTruthy`; `input.phone or ""` is `Option.getD "" `.
* The `re.match` phone pattern is embedded as a small nondeterministic
  matcher `phoneRegexMatch` following the regex
  `^(\+\d{1,3}[-.]?)?\(?\d{3}\)?[-.]?\d{3}[-.]?\d{4}$` piece by piece
  (`\d` is taken as an ASCII digit).
-/

/-- A row of the `crm_customer` table (`crm/models.py`, `Customer`). -/
structure Customer where
  id : Nat
  name : String
  email : String
  phone : String
  deriving Repr, DecidableEq

/-- A row of the `crm_product` table (`crm/models.py`, `Product`).
`price` is in cents: `DecimalField(decimal_places=2)` is exact
fixed-point decimal arithmetic. -/
structure Product where
  id : Nat
  name : String
  price : Int
  stock : Int
  description : String
  deriving Repr, DecidableEq

/-- A row of the `crm_order` table together with its `order_products`
association rows (`crm/models.py`, `Order`); `productIds` is the set of
product ids attached with `order.products.set(...)`, `totalAmount` is in
cents. -/
structure Order where
  id : Nat
  customerId : Nat
  productIds : List Nat
  totalAmount : Int
  deriving Repr, DecidableEq

/-- The persistent state: the three tables plus autoincrement counters. -/
structure Store where
  customers : List Customer
  products : List Product
  orders : List Order
  nextCustomerId : Nat
  nextProductId : Nat
  nextOrderId : Nat
  deriving Repr, DecidableEq

/-- `CustomerInput` from `crm/schema.py`: `name` and `email` required,
`phone` optional. -/
structure CustomerInput where
  name : String
  email : String
  phone : Option String
  deriving Repr, DecidableEq

/-- `ProductInput` from `crm/schema.py`: `price` in cents, `stock` and
`description` optional. -/
structure ProductInput where
  name : String
  price : Int
  stock : Option Int
  description : Option String
  deriving Repr, DecidableEq

/-- `OrderInput` from `crm/schema.py`. -/
structure OrderInput where
  customer_id : Nat
  product_ids : List Nat
  deriving Repr, DecidableEq

/-- Return envelope of `CreateCustomer`.  `errors` is optional because
the graphene field defaults to `null` when a branch does not pass it. -/
structure CustomerEnvelope where
  customer : Option Customer
  success : Bool
  message : String
  errors : Option (List String)
  deriving Repr, DecidableEq

/-- Return envelope of `CreateProduct` (every branch sets `errors`). -/
structure ProductEnvelope where
  product : Option Product
  success : Bool
  message : String
  errors : List String
  deriving Repr, DecidableEq

/-- Return envelope of `CreateOrder` (every branch sets `errors`). -/
structure OrderEnvelope where
  order : Option Order
  success : Bool
  message : String
  errors : List String
  deriving Repr, DecidableEq

/-- Return envelope of `BulkCreateCustomers`. -/
structure BulkEnvelope where
  customers : List Customer
  errors : List String
  success_count : Nat
  deriving Repr, DecidableEq

/-! ## The phone regex -/

/-- The `[-.]` character class. -/
def isSep (c : Char) : Bool := c == '-' || c == '.'

/-- Match exactly `n` digits (`\d\{n\}`), returning the remainder. -/
def exactDigits : Nat → List Char → Option (List Char)
  | 0, cs => some cs
  | _ + 1, [] => none
  | n + 1, c :: cs => if c.isDigit then exactDigits n cs else none

/-- An optional single character (`X?`): all possible remainders. -/
def optChar (p : Char → Bool) : List Char → List (List Char)
  | [] => [[]]
  | c :: cs => if p c then [cs, c :: cs] else [c :: cs]

/-- The optional country-code group `(\+\d\{1,3\}[-.]?)?`. -/
def countryCode (cs : List Char) : List (List Char) :=
  cs :: (match cs with
    | '+' :: rest =>
        ((exactDigits 1 rest).toList ++ (exactDigits 2 rest).toList ++
          (exactDigits 3 rest).toList).flatMap (optChar isSep)
    | _ => [])

/-- `re.match` of `^(\+\d\{1,3\}[-.]?)?\(?\d\{3\}\)?[-.]?\d\{3\}[-.]?\d\{4\}$`
against a string, as used by every phone validation in the repository. -/
def phoneRegexMatch (s : String) : Bool :=
  let r1 := countryCode s.toList
  let r2 := r1.flatMap (optChar (· == '('))
  let r3 := r2.filterMap (exactDigits 3)
  let r4 := r3.flatMap (optChar (· == ')'))
  let r5 := r4.flatMap (optChar isSep)
  let r6 := r5.filterMap (exactDigits 3)
  let r7 := r6.flatMap (optChar isSep)
  let r8 := r7.filterMap (exactDigits 4)
  r8.any (·.isEmpty)

/-- Python truthiness of `input.phone` (`None` and `""` are falsy). -/
def phoneTruthy : Option String → Bool
  | none => false
  | some p => !(p == "")

/-! ## CreateCustomer (`crm/schema.py` lines 61-101) -/

/-- The validation block of `CreateCustomer.mutate`: email-uniqueness
check and, when `input.phone` is truthy, the phone-format check.  The
identical block appears in the `tests.py` copy of the mutation. -/
def customerValidationErrors (s : Store) (input : CustomerInput) : List String :=
  (if s.customers.any (fun c => c.email == input.email) then
      ["Email already exists"]
    else []) ++
  (if phoneTruthy input.phone && !phoneRegexMatch (input.phone.getD "") then
      ["Invalid phone format. Use +1234567890 or 123-456-7890"]
    else [])

/-- `Customer.objects.create(name=..., email=..., phone=input.phone or "")`. -/
def newCustomerRow (s : Store) (input : CustomerInput) : Customer :=
  { id := s.nextCustomerId
    name := input.name
    email := input.email
    phone := input.phone.getD "" }

/-- The store after appending a freshly created customer row. -/
def addCustomerRow (s : Store) (c : Customer) : Store :=
  { s with customers := s.customers ++ [c], nextCustomerId := s.nextCustomerId + 1 }

/-- `CreateCustomer.mutate` from `alx_backend_graphql/crm/schema.py`:
on validation failure it returns the envelope WITHOUT passing `errors`
(so that field is `none`); on success it creates the row.  The
`except` branch is unreachable in this sequential model because the
uniqueness pre-check already passed. -/
def CreateCustomer.mutate (s : Store) (input : CustomerInput) :
    CustomerEnvelope × Store :=
  let errors := customerValidationErrors s input
  if errors.isEmpty then
    let c := newCustomerRow s input
    ({ customer := some c
       success := true
       message := "Customer created successfully"
       errors := some [] },
     addCustomerRow s c)
  else
    ({ customer := none
       success := false
       message := "Validation failed"
       errors := none }, s)

/-- The duplicate `CreateCustomer.mutate` from
`alx_backend_graphql_crm/crm/tests.py` (lines 132-185): identical except
that its validation-failure branch passes `errors=errors`. -/
def CreateCustomerTests.mutate (s : Store) (input : CustomerInput) :
    CustomerEnvelope × Store :=
  let errors := customerValidationErrors s input
  if errors.isEmpty then
    let c := newCustomerRow s input
    ({ customer := some c
       success := true
       message := "Customer created successfully"
       errors := some [] },
     addCustomerRow s c)
  else
    ({ customer := none
       success := false
       message := "Validation failed"
       errors := some errors }, s)

/-! ## BulkCreateCustomers (`crm/schema.py` lines 103-141) -/

/-- `f"Customer \x7bi+1\x7d: Email \x7bemail\x7d already exists"`. -/
def bulkEmailErr (i : Nat) (email : String) : String :=
  let j := i + 1
  s!"Customer {j}: Email {email} already exists"

/-- `f"Customer \x7bi+1\x7d: Invalid phone format"`. -/
def bulkPhoneErr (i : Nat) : String :=
  let j := i + 1
  s!"Customer {j}: Invalid phone format"

/-- Truthy phone that fails the regex (the bulk loop's second check). -/
def bulkPhoneBad (phone : Option String) : Bool :=
  phoneTruthy phone && !phoneRegexMatch (phone.getD "")

/-- The `for i, customer_data in enumerate(input)` loop of
`BulkCreateCustomers.mutate`: `i` is the 0-based loop index; each item
either appends one labeled error and continues, or creates the row
immediately (so later items see it). -/
def BulkCreateCustomers.go (s : Store) (i : Nat) :
    List CustomerInput → List Customer × List String × Store
  | [] => ([], [], s)
  | cd :: rest =>
    if s.customers.any (fun c => c.email == cd.email) then
      let r := BulkCreateCustomers.go s (i + 1) rest
      (r.1, bulkEmailErr i cd.email :: r.2.1, r.2.2)
    else if bulkPhoneBad cd.phone then
      let r := BulkCreateCustomers.go s (i + 1) rest
      (r.1, bulkPhoneErr i :: r.2.1, r.2.2)
    else
      let c := newCustomerRow s cd
      let r := BulkCreateCustomers.go (addCustomerRow s c) (i + 1) rest
      (c :: r.1, r.2.1, r.2.2)

/-- `BulkCreateCustomers.mutate` from `alx_backend_graphql/crm/schema.py`:
partial-success processing of the whole list;
`success_count=len(created_customers)`. -/
def BulkCreateCustomers.mutate (s : Store) (input : List CustomerInput) :
    BulkEnvelope × Store :=
  let r := BulkCreateCustomers.go s 0 input
  ({ customers := r.1, errors := r.2.1, success_count := r.1.length }, r.2.2)

/-! ## CreateProduct (`crm/schema.py` lines 143-195) -/

/-- The validation block of `CreateProduct.mutate`: price positivity and,
when stock is given, stock non-negativity; both checks always run. -/
def productValidationErrors (input : ProductInput) : List String :=
  (if input.price ≤ 0 then ["Price must be positive"] else []) ++
  (match input.stock with
   | some st => if st < 0 then ["Stock cannot be negative"] else []
   | none => [])

/-- `Product.objects.create(...)` with
`stock=input.stock if input.stock is not None else 0` and
`description=input.description or ""`. -/
def newProductRow (s : Store) (input : ProductInput) : Product :=
  { id := s.nextProductId
    name := input.name
    price := input.price
    stock := input.stock.getD 0
    description := input.description.getD "" }

/-- `CreateProduct.mutate` from `alx_backend_graphql/crm/schema.py`. -/
def CreateProduct.mutate (s : Store) (input : ProductInput) :
    ProductEnvelope × Store :=
  let errors := productValidationErrors input
  if errors.isEmpty then
    let p := newProductRow s input
    ({ product := some p
       success := true
       message := "Product created successfully"
       errors := [] },
     { s with products := s.products ++ [p], nextProductId := s.nextProductId + 1 })
  else
    ({ product := none
       success := false
       message := "Validation failed"
       errors := errors }, s)

/-! ## CreateOrder (`crm/schema.py` lines 197-267) -/

/-- `Customer.objects.get(id=...)` (`None` models `DoesNotExist`). -/
def customerLookup (s : Store) (cid : Nat) : Option Customer :=
  s.customers.find? (fun c => c.id == cid)

/-- `Product.objects.filter(id__in=ids)`: every product row whose id is
in the requested list, each row once. -/
def productsWithIds (s : Store) (ids : List Nat) : List Product :=
  s.products.filter (fun p => decide (p.id ∈ ids))

/-- Python `str(list(...))` rendering of an id list, e.g. `[10, 20]`. -/
def renderIdList (ids : List Nat) : String :=
  "[" ++ String.intercalate ", " (ids.map toString) ++ "]"

/-- Helper for `set(...)`: deduplicate keeping first occurrences. -/
def dedupAux (seen : List Nat) : List Nat → List Nat
  | [] => []
  | i :: rest =>
    if i ∈ seen then dedupAux seen rest else i :: dedupAux (i :: seen) rest

/-- `set(input.product_ids)` as a duplicate-free list (the order inside
the rendered error message is otherwise unobservable to the claims). -/
def dedupKeepFirst (l : List Nat) : List Nat :=
  dedupAux [] l

/-- `f"Customer with ID \x7b...\x7d does not exist"`. -/
def customerMissingMsg (cid : Nat) : String :=
  s!"Customer with ID {cid} does not exist"

/-- Validation 1 of `CreateOrder.mutate`: the customer must exist. -/
def customerCheckErrors (s : Store) (cid : Nat) : List String :=
  match customerLookup s cid with
  | some _ => []
  | none => [customerMissingMsg cid]

/-- Validation 2 of `CreateOrder.mutate`: non-empty product list, then
compare `existing_products.count()` with `len(input.product_ids)` and
report `set(input.product_ids) - existing_ids` when they differ. -/
def productCheckErrors (s : Store) (ids : List Nat) : List String :=
  if ids.isEmpty then
    ["At least one product must be specified"]
  else
    let existing := productsWithIds s ids
    if existing.length == ids.length then []
    else
      let existingIds := existing.map Product.id
      let missing := (dedupKeepFirst ids).filter
        (fun i => decide (i ∉ existingIds))
      let rendered := renderIdList missing
      [s!"Products with IDs {rendered} do not exist"]

/-- The validation block of `CreateOrder.mutate`: both checks always
run and their failures accumulate into one list. -/
def orderValidationErrors (s : Store) (input : OrderInput) : List String :=
  customerCheckErrors s input.customer_id ++ productCheckErrors s input.product_ids

/-- `CreateOrder.mutate` from `alx_backend_graphql/crm/schema.py`: on
empty error list, create the order with zero total, attach
`Product.objects.filter(id__in=...)`, recompute the total as the exact
sum of the attached products' prices and save.  The inner `none`
customer branch is unreachable because an absent customer puts an error
in the list. -/
def CreateOrder.mutate (s : Store) (input : OrderInput) :
    OrderEnvelope × Store :=
  let errors := orderValidationErrors s input
  if errors.isEmpty then
    match customerLookup s input.customer_id with
    | some customer =>
      let products := productsWithIds s input.product_ids
      let totalAmount := (products.map Product.price).sum
      let order : Order :=
        { id := s.nextOrderId
          customerId := customer.id
          productIds := products.map Product.id
          totalAmount := totalAmount }
      ({ order := some order
         success := true
         message := "Order created successfully"
         errors := [] },
       { s with orders := s.orders ++ [order], nextOrderId := s.nextOrderId + 1 })
    | none =>
      ({ order := none
         success := false
         message := "Validation failed"
         errors := errors }, s)
  else
    ({ order := none
       success := false
       message := "Validation failed"
       errors := errors }, s)

/-- The price of the product row with id `i` (0 when absent); used to
state total-amount correctness per requested id. -/
def priceOf (s : Store) (i : Nat) : Int :=
  ((s.products.find? (fun p => p.id == i)).map Product.price).getD 0

/-- 1 when a product row with id `i` exists, else 0; proof-side view of
the `id__in` count. -/
def presentCount (P : List Product) (i : Nat) : Nat :=
  ((P.find? fun p => p.id == i).map fun _ => 1).getD 0

/-! ## Concrete states used by witnesses and counterexamples -/

/-- Concrete state for the C1 counterexample: customer 1 and product 10
(price 999.99, i.e. 99999 cents) exist. -/
def storeC1dup : Store :=
  { customers := [{ id := 1, name := "Ann", email := "ann@example.com", phone := "" }]
    products := [{ id := 10, name := "Gadget", price := 99999, stock := 5, description := "" }]
    orders := []
    nextCustomerId := 2, nextProductId := 11, nextOrderId := 1 }

/-- Concrete state for the C1 witness: customer 1 exists; product 10
costs 999.99 and product 11 costs 25.50 (in cents). -/
def storeC1 : Store :=
  { customers := [{ id := 1, name := "Alice", email := "alice@example.com", phone := "" }]
    products := [{ id := 10, name := "A", price := 99999, stock := 5, description := "" },
                 { id := 11, name := "B", price := 2550, stock := 3, description := "" }]
    orders := []
    nextCustomerId := 2, nextProductId := 12, nextOrderId := 1 }

/-- Concrete state for C3: customer 1 and product 10 (25.50) exist. -/
def storeC3 : Store :=
  { customers := [{ id := 1, name := "Ben", email := "ben@example.com", phone := "" }]
    products := [{ id := 10, name := "Widget", price := 2550, stock := 2, description := "" }]
    orders := []
    nextCustomerId := 2, nextProductId := 11, nextOrderId := 1 }

/-- Concrete state for the C2 counterexample: product 10 exists, no
customer exists (in particular, no customer 999). -/
def storeC2dup : Store :=
  { customers := []
    products := [{ id := 10, name := "Thing", price := 1000, stock := 1, description := "" }]
    orders := []
    nextCustomerId := 1, nextProductId := 11, nextOrderId := 1 }

/-- Concrete state for the C2 witness: product 10 exists, no customer
999 exists. -/
def storeC2 : Store :=
  { customers := [{ id := 1, name := "Cara", email := "cara@example.com", phone := "" }]
    products := [{ id := 10, name := "Item", price := 500, stock := 4, description := "" }]
    orders := []
    nextCustomerId := 2, nextProductId := 11, nextOrderId := 1 }

/-- Concrete state for the C4 evaluation: a customer with email
`dup@example.com` already exists. -/
def storeC4 : Store :=
  { customers := [{ id := 1, name := "Dan", email := "dup@example.com", phone := "" }]
    products := []
    orders := []
    nextCustomerId := 2, nextProductId := 1, nextOrderId := 1 }

/-- Concrete state for C5: a customer with email `used@example.com`
already exists. -/
def storeC5 : Store :=
  { customers := [{ id := 1, name := "Eve", email := "used@example.com", phone := "" }]
    products := []
    orders := []
    nextCustomerId := 2, nextProductId := 1, nextOrderId := 1 }

/-- Concrete state for the C7 witness: empty store. -/
def storeC7 : Store :=
  { customers := [], products := [], orders := []
    nextCustomerId := 1, nextProductId := 1, nextOrderId := 1 }

/-- Concrete state for the C8 witness: empty store. -/
def storeC8 : Store :=
  { customers := [], products := [], orders := []
    nextCustomerId := 1, nextProductId := 1, nextOrderId := 1 }

/-- Concrete state for C10: a customer with email `ten@example.com`
already exists. -/
def storeC10 : Store :=
  { customers := [{ id := 1, name := "Tia", email := "ten@example.com", phone := "" }]
    products := []
    orders := []
    nextCustomerId := 2, nextProductId := 1, nextOrderId := 1 }

/-! ## Helper lemmas about filtered sums over the product table -/

/-- A filtered-then-mapped sum equals the sum of a pointwise indicator. -/
theorem sum_filter_eq_sum_indicator {M : Type} [AddCommMonoid M] (g : Product → M)
    (f : Product → Bool) (P : List Product) :
    ((P.filter f).map g).sum = (P.map fun p => if f p then g p else 0).sum := by
  induction P with
  | nil => simp
  | cons q P ih =>
    by_cases h : f q
    · simp [List.filter_cons, h, ih]
    · simp [List.filter_cons, h, ih]

/-- If no row carries id `i`, the single-id indicator sum is zero. -/
theorem sum_indicator_eq_zero {M : Type} [AddCommMonoid M] (g : Product → M)
    (i : Nat) (P : List Product) (h : ∀ p ∈ P, p.id ≠ i) :
    (P.map fun p => if p.id = i then g p else 0).sum = 0 := by
  induction P with
  | nil => simp
  | cons q P ih =>
    have hq : q.id ≠ i := h q (List.mem_cons_self q P)
    have ih' := ih fun p hp => h p (List.mem_cons_of_mem q hp)
    simp [hq, ih']

/-- With primary-key-distinct rows, the single-id indicator sum picks
out exactly the matching row's value. -/
theorem sum_indicator_single {M : Type} [AddCommMonoid M] (g : Product → M)
    (i : Nat) (P : List Product) (hP : (P.map Product.id).Nodup) :
    (P.map fun p => if p.id = i then g p else 0).sum
      = ((P.find? fun p => p.id == i).map g).getD 0 := by
  induction P with
  | nil => simp
  | cons q P ih =>
    rw [List.map_cons, List.nodup_cons] at hP
    by_cases hq : q.id = i
    · have hnot : ∀ p ∈ P, p.id ≠ i := by
        intro p hp hpi
        exact hP.1 (hq ▸ hpi ▸ List.mem_map_of_mem Product.id hp)
      have hfind : (q :: P).find? (fun p => p.id == i) = some q :=
        List.find?_cons_of_pos _ (by simp [hq])
      simp [hfind, hq, sum_indicator_eq_zero g i P hnot]
    · have hfind : (q :: P).find? (fun p => p.id == i) = P.find? (fun p => p.id == i) :=
        List.find?_cons_of_neg _ (by simp [hq])
      simp [hfind, hq, ih hP.2]

/-- The central sum lemma: summing `g` over the rows whose id lies in a
duplicate-free, fully-present id list equals summing, per requested id,
the value of the row found for that id. -/
theorem sum_filter_mem_ids {M : Type} [AddCommMonoid M] (g : Product → M)
    (P : List Product) (ids : List Nat)
    (hP : (P.map Product.id).Nodup) (hids : ids.Nodup) :
    ((P.filter fun p => decide (p.id ∈ ids)).map g).sum
      = (ids.map fun i => ((P.find? fun p => p.id == i).map g).getD 0).sum := by
  induction ids with
  | nil => simp
  | cons i ids ih =>
    have hi : i ∉ ids := (List.nodup_cons.mp hids).1
    have hids' : ids.Nodup := (List.nodup_cons.mp hids).2
    have hsplit : (fun p => if decide (p.id ∈ i :: ids) then g p else 0)
        = fun p => (if p.id = i then g p else 0)
            + (if decide (p.id ∈ ids) then g p else 0) := by
      funext p
      by_cases h1 : p.id = i
      · simp [h1, hi]
      · by_cases h2 : p.id ∈ ids <;> simp [h1, h2]
    rw [sum_filter_eq_sum_indicator, hsplit, List.sum_map_add,
      sum_indicator_single g i P hP, ← sum_filter_eq_sum_indicator,
      ih hids', List.map_cons, List.sum_cons]

/-- Summing the constant 1 counts the length. -/
theorem sum_map_ones {α : Type} (l : List α) :
    (l.map fun _ => (1 : ℕ)).sum = l.length := by
  induction l with
  | nil => rfl
  | cons a l ih => simp [ih, Nat.add_comm]

/-- With distinct row ids and a duplicate-free, fully-present id list,
the `id__in` filter returns exactly one row per requested id, so the
code's `count() == len(ids)` comparison succeeds. -/
theorem filter_mem_ids_length (P : List Product) (ids : List Nat)
    (hP : (P.map Product.id).Nodup) (hids : ids.Nodup)
    (hex : ∀ i ∈ ids, ∃ p ∈ P, p.id = i) :
    (P.filter fun p => decide (p.id ∈ ids)).length = ids.length := by
  have h := sum_filter_mem_ids (M := ℕ) (fun _ => 1) P ids hP hids
  rw [sum_map_ones] at h
  rw [h]
  have : ∀ i ∈ ids, ((P.find? fun p => p.id == i).map fun _ => (1 : ℕ)).getD 0 = 1 := by
    intro i hi
    rcases hex i hi with ⟨p, hp, hpi⟩
    have : (P.find? fun p => p.id == i).isSome := by
      rw [List.find?_isSome]
      exact ⟨p, hp, by simp [hpi]⟩
    rcases Option.isSome_iff_exists.mp this with ⟨q, hq⟩
    simp [hq]
  rw [List.map_congr_left this, sum_map_ones]

/-- The ids of the filtered rows are exactly the requested ids. -/
theorem mem_filter_map_id (P : List Product) (ids : List Nat)
    (hex : ∀ i ∈ ids, ∃ p ∈ P, p.id = i) (j : Nat) :
    j ∈ ((P.filter fun p => decide (p.id ∈ ids)).map Product.id) ↔ j ∈ ids := by
  constructor
  · intro hj
    rcases List.mem_map.mp hj with ⟨p, hp, hpj⟩
    rcases List.mem_filter.mp hp with ⟨_, hmem⟩
    exact hpj ▸ (by simpa using hmem)
  · intro hj
    rcases hex j hj with ⟨p, hp, hpj⟩
    exact List.mem_map.mpr ⟨p, List.mem_filter.mpr ⟨hp, by simp [hpj, hj]⟩, hpj⟩

/-- Filtering preserves the distinctness of the id column. -/
theorem nodup_filter_map_id (P : List Product) (f : Product → Bool)
    (hP : (P.map Product.id).Nodup) : ((P.filter f).map Product.id).Nodup :=
  hP.sublist (List.Sublist.map Product.id (List.filter_sublist P))

/-- Under an existing customer and a non-empty, duplicate-free, fully
present product-id list, the `CreateOrder` validation block produces no
errors. -/
theorem orderValidationErrors_eq_nil (s : Store) (inp : OrderInput)
    (hwf : (s.products.map Product.id).Nodup)
    (hc : (customerLookup s inp.customer_id).isSome = true)
    (hne : inp.product_ids ≠ [])
    (hnd : inp.product_ids.Nodup)
    (hex : ∀ i ∈ inp.product_ids, ∃ p ∈ s.products, p.id = i) :
    orderValidationErrors s inp = [] := by
  rcases Option.isSome_iff_exists.mp hc with ⟨c, hcEq⟩
  have hlen := filter_mem_ids_length s.products inp.product_ids hwf hnd hex
  unfold orderValidationErrors customerCheckErrors productCheckErrors
  rw [hcEq]
  simp [productsWithIds, hne, hlen]

/-! ## C1 -/

/-- C1 counterexample: `CreateOrder(customerId=1, productIds=[10,10])`
with customer 1 existing and every listed product id existing is a
request the claim says must succeed, yet the code rejects it (the
`count() != len(...)` comparison does not collapse duplicates), creating
no order. -/
theorem createOrder_duplicate_ids_rejected :
    (customerLookup storeC1dup 1).isSome = true ∧
    ([10, 10] : List Nat) ≠ [] ∧
    (∀ i ∈ ([10, 10] : List Nat), ∃ p ∈ storeC1dup.products, p.id = i) ∧
    (CreateOrder.mutate storeC1dup { customer_id := 1, product_ids := [10, 10] }).1.success = false ∧
    (CreateOrder.mutate storeC1dup { customer_id := 1, product_ids := [10, 10] }).1.order = none ∧
    (CreateOrder.mutate storeC1dup { customer_id := 1, product_ids := [10, 10] }).2.orders = [] := by
  decide

/-- C1 (amended: the product-id list is additionally duplicate-free):
with primary-key-distinct product rows, an existing customer and a
non-empty duplicate-free list of existing product ids, `CreateOrder`
succeeds, the returned order's total-amount is the exact fixed-point
decimal sum of the referenced products' current prices (integer cents,
no floating point), its attached-product set is exactly the input id
set, and the order is persisted. -/
theorem createOrder_valid_total_and_products (s : Store) (inp : OrderInput)
    (hwf : (s.products.map Product.id).Nodup)
    (hc : (customerLookup s inp.customer_id).isSome = true)
    (hne : inp.product_ids ≠ [])
    (hnd : inp.product_ids.Nodup)
    (hex : ∀ i ∈ inp.product_ids, ∃ p ∈ s.products, p.id = i) :
    (CreateOrder.mutate s inp).1.success = true ∧
    ∃ o, (CreateOrder.mutate s inp).1.order = some o ∧
      o.totalAmount = (inp.product_ids.map fun i => priceOf s i).sum ∧
      (∀ j, j ∈ o.productIds ↔ j ∈ inp.product_ids) ∧
      o.productIds.Nodup ∧
      (CreateOrder.mutate s inp).2.orders = s.orders ++ [o] := by
  rcases Option.isSome_iff_exists.mp hc with ⟨c, hcEq⟩
  have hnil := orderValidationErrors_eq_nil s inp hwf hc hne hnd hex
  have htot : ((productsWithIds s inp.product_ids).map Product.price).sum
      = (inp.product_ids.map fun i => priceOf s i).sum := by
    unfold productsWithIds priceOf
    exact sum_filter_mem_ids Product.price s.products inp.product_ids hwf hnd
  have hmem : ∀ j, j ∈ ((productsWithIds s inp.product_ids).map Product.id)
      ↔ j ∈ inp.product_ids := by
    intro j
    unfold productsWithIds
    exact mem_filter_map_id s.products inp.product_ids hex j
  have hnodup : ((productsWithIds s inp.product_ids).map Product.id).Nodup := by
    unfold productsWithIds
    exact nodup_filter_map_id s.products _ hwf
  unfold CreateOrder.mutate
  rw [hnil, hcEq]
  exact ⟨rfl, ⟨_, rfl, htot, hmem, hnodup, rfl⟩⟩

/-- C1 witness: the hypotheses hold for
`CreateOrder(customerId=1, productIds=[10,11])` on `storeC1`, the
theorem applies, and the concrete total is 1025.49 (102549 cents). -/
theorem createOrder_valid_total_and_products_witness :
    ((storeC1.products.map Product.id).Nodup ∧
      (customerLookup storeC1 1).isSome = true ∧
      (([10, 11] : List Nat) ≠ []) ∧
      ([10, 11] : List Nat).Nodup ∧
      (∀ i ∈ ([10, 11] : List Nat), ∃ p ∈ storeC1.products, p.id = i)) ∧
    (CreateOrder.mutate storeC1 { customer_id := 1, product_ids := [10, 11] }).1.success = true ∧
    (CreateOrder.mutate storeC1 { customer_id := 1, product_ids := [10, 11] }).1.order
      = some { id := 1, customerId := 1, productIds := [10, 11], totalAmount := 102549 } :=
  ⟨by decide,
   (createOrder_valid_total_and_products storeC1 { customer_id := 1, product_ids := [10, 11] }
      (by decide) (by decide) (by decide) (by decide) (by decide)).1,
   by decide⟩

/-! ## C3 -/

/-- C3: the code run on the failing input.  Customer 1 exists, every id
in `[10, 10]` names an existing product, yet the mutation fails with the
self-contradictory error `"Products with IDs [] do not exist"` (an empty
missing set) and writes nothing, instead of collapsing the duplicates
and succeeding as the spec states. -/
theorem createOrder_duplicate_ids_failure_eval :
    (customerLookup storeC3 1).isSome = true ∧
    (∀ i ∈ ([10, 10] : List Nat), ∃ p ∈ storeC3.products, p.id = i) ∧
    (CreateOrder.mutate storeC3 { customer_id := 1, product_ids := [10, 10] }).1.success = false ∧
    (CreateOrder.mutate storeC3 { customer_id := 1, product_ids := [10, 10] }).1.errors
      = ["Products with IDs [] do not exist"] ∧
    (CreateOrder.mutate storeC3 { customer_id := 1, product_ids := [10, 10] }).2 = storeC3 := by
  decide

/-! ## Lemmas about `dedupKeepFirst` and the `count()` comparison -/

/-- Membership in the dedup accumulator run. -/
theorem mem_dedupAux (l : List Nat) : ∀ (seen : List Nat) (j : Nat),
    j ∈ dedupAux seen l ↔ j ∈ l ∧ j ∉ seen := by
  induction l with
  | nil => intro seen j; simp [dedupAux]
  | cons i rest ih =>
    intro seen j
    by_cases h : i ∈ seen
    · rw [dedupAux]
      simp only [h, if_true]
      rw [ih]
      simp only [List.mem_cons]
      constructor
      · rintro ⟨hj, hn⟩; exact ⟨Or.inr hj, hn⟩
      · rintro ⟨hj | hj, hn⟩
        · exact absurd (hj ▸ h) hn
        · exact ⟨hj, hn⟩
    · rw [dedupAux]
      simp only [h, if_false]
      simp only [List.mem_cons, ih]
      constructor
      · rintro (rfl | ⟨hj, hn⟩)
        · exact ⟨Or.inl rfl, h⟩
        · exact ⟨Or.inr hj, fun hs => hn (Or.inr hs)⟩
      · rintro ⟨hj, hn⟩
        rcases hj with rfl | hj
        · exact Or.inl rfl
        · by_cases hji : j = i
          · exact Or.inl hji
          · exact Or.inr ⟨hj, fun hs => hs.elim hji hn⟩

/-- The dedup accumulator run produces a duplicate-free list. -/
theorem nodup_dedupAux (l : List Nat) : ∀ seen : List Nat,
    (dedupAux seen l).Nodup := by
  induction l with
  | nil => intro seen; simp [dedupAux]
  | cons i rest ih =>
    intro seen
    by_cases h : i ∈ seen
    · rw [dedupAux]; simp only [h, if_true]; exact ih seen
    · rw [dedupAux]
      simp only [h, if_false, List.nodup_cons]
      refine ⟨fun hmem => ?_, ih (i :: seen)⟩
      exact ((mem_dedupAux rest (i :: seen) i).mp hmem).2 (List.mem_cons_self i seen)

/-- Dedup never lengthens a list. -/
theorem length_dedupAux_le (l : List Nat) : ∀ seen : List Nat,
    (dedupAux seen l).length ≤ l.length := by
  induction l with
  | nil => intro seen; simp [dedupAux]
  | cons i rest ih =>
    intro seen
    by_cases h : i ∈ seen
    · rw [dedupAux]; simp only [h, if_true, List.length_cons]
      exact le_trans (ih seen) (Nat.le_succ _)
    · rw [dedupAux]; simp only [h, if_false, List.length_cons]
      exact Nat.succ_le_succ (ih (i :: seen))

/-- If dedup removed nothing, the list was duplicate-free and disjoint
from the accumulator. -/
theorem nodup_of_dedupAux_length (l : List Nat) : ∀ seen : List Nat,
    (dedupAux seen l).length = l.length → l.Nodup ∧ ∀ j ∈ l, j ∉ seen := by
  induction l with
  | nil => intro seen _; simp
  | cons i rest ih =>
    intro seen h
    by_cases hmem : i ∈ seen
    · rw [dedupAux] at h
      simp only [hmem, if_true, List.length_cons] at h
      have := length_dedupAux_le rest seen
      omega
    · rw [dedupAux] at h
      simp only [hmem, if_false, List.length_cons] at h
      obtain ⟨hnd, hni⟩ := ih (i :: seen) (by omega)
      refine ⟨List.nodup_cons.mpr ⟨fun hir => ?_, hnd⟩, ?_⟩
      · exact hni i hir (List.mem_cons_self i seen)
      · intro j hj
        rcases List.mem_cons.mp hj with rfl | hj
        · exact hmem
        · exact fun hs => hni j hj (List.mem_cons_of_mem i hs)

/-- `dedupKeepFirst` preserves membership. -/
theorem mem_dedupKeepFirst (l : List Nat) (j : Nat) :
    j ∈ dedupKeepFirst l ↔ j ∈ l := by
  unfold dedupKeepFirst
  rw [mem_dedupAux]
  simp

/-- `dedupKeepFirst` is duplicate-free. -/
theorem nodup_dedupKeepFirst (l : List Nat) : (dedupKeepFirst l).Nodup :=
  nodup_dedupAux l []

/-- `dedupKeepFirst` never lengthens. -/
theorem length_dedupKeepFirst_le (l : List Nat) :
    (dedupKeepFirst l).length ≤ l.length :=
  length_dedupAux_le l []

/-- A list whose dedup has full length is duplicate-free. -/
theorem nodup_of_dedupKeepFirst_length (l : List Nat)
    (h : (dedupKeepFirst l).length = l.length) : l.Nodup :=
  (nodup_of_dedupAux_length l [] h).1

/-- `presentCount` is at most one. -/
theorem presentCount_le_one (P : List Product) (i : Nat) :
    presentCount P i ≤ 1 := by
  unfold presentCount
  cases h : P.find? fun p => p.id == i <;> simp [h]

/-- `presentCount` hits one exactly on present ids. -/
theorem presentCount_eq_one_iff (P : List Product) (i : Nat) :
    presentCount P i = 1 ↔ ∃ p ∈ P, p.id = i := by
  unfold presentCount
  constructor
  · intro h
    cases hf : P.find? fun p => p.id == i with
    | none => rw [hf] at h; simp at h
    | some q =>
      have hq := List.find?_some hf
      exact ⟨q, List.mem_of_find?_eq_some hf, by simpa using hq⟩
  · intro ⟨p, hp, hpi⟩
    have : (P.find? fun p => p.id == i).isSome := by
      rw [List.find?_isSome]
      exact ⟨p, hp, by simp [hpi]⟩
    rcases Option.isSome_iff_exists.mp this with ⟨q, hq⟩
    simp [hq]

/-- The `id__in` filter length is the sum of per-id present counts, for
a duplicate-free id list over primary-key-distinct rows. -/
theorem filter_length_eq_sum_presentCount (P : List Product) (ids : List Nat)
    (hP : (P.map Product.id).Nodup) (hids : ids.Nodup) :
    (P.filter fun p => decide (p.id ∈ ids)).length
      = (ids.map (presentCount P)).sum := by
  have h := sum_filter_mem_ids (M := ℕ) (fun _ => 1) P ids hP hids
  rw [sum_map_ones] at h
  simpa [presentCount] using h

/-- Sums of 0/1 values are bounded by the length. -/
theorem sum_map_le_length (f : Nat → Nat) (l : List Nat)
    (h : ∀ x ∈ l, f x ≤ 1) : (l.map f).sum ≤ l.length := by
  induction l with
  | nil => simp
  | cons a l ih =>
    have ha := h a (List.mem_cons_self a l)
    have ih' := ih fun x hx => h x (List.mem_cons_of_mem a hx)
    simp only [List.map_cons, List.sum_cons, List.length_cons]
    omega

/-- A 0/1 sum reaching the length forces every value to be one. -/
theorem sum_map_eq_length_forces_one (f : Nat → Nat) (l : List Nat)
    (h : ∀ x ∈ l, f x ≤ 1) (heq : (l.map f).sum = l.length) :
    ∀ x ∈ l, f x = 1 := by
  induction l with
  | nil => simp
  | cons a l ih =>
    have ha := h a (List.mem_cons_self a l)
    have hrest : ∀ x ∈ l, f x ≤ 1 := fun x hx => h x (List.mem_cons_of_mem a hx)
    have hle := sum_map_le_length f l hrest
    simp only [List.map_cons, List.sum_cons, List.length_cons] at heq
    have hfa : f a = 1 := by omega
    have hsum : (l.map f).sum = l.length := by omega
    intro x hx
    rcases List.mem_cons.mp hx with rfl | hx
    · exact hfa
    · exact ih hrest hsum x hx

/-- An empty product-check error list forces a non-empty, duplicate-free
and fully-present id list (duplicate-freedom is forced by the code's
`count()`-versus-`len` comparison). -/
theorem productCheck_eq_nil_implies (s : Store) (ids : List Nat)
    (hwf : (s.products.map Product.id).Nodup)
    (h : productCheckErrors s ids = []) :
    ids ≠ [] ∧ ids.Nodup ∧ ∀ i ∈ ids, ∃ p ∈ s.products, p.id = i := by
  by_cases h0 : ids = []
  · subst h0; simp [productCheckErrors] at h
  · have hEmp : ids.isEmpty = false := by
      cases ids
      · exact absurd rfl h0
      · rfl
    unfold productCheckErrors at h
    rw [hEmp] at h
    simp only [Bool.false_eq_true, if_false] at h
    by_cases hlen : (productsWithIds s ids).length = ids.length
    · have hD : (dedupKeepFirst ids).Nodup := nodup_dedupKeepFirst ids
      have hfe : productsWithIds s ids
          = s.products.filter fun p => decide (p.id ∈ dedupKeepFirst ids) := by
        unfold productsWithIds
        apply List.filter_congr
        intro p _
        exact decide_eq_decide.mpr (mem_dedupKeepFirst ids p.id).symm
      have hsum : (s.products.filter fun p => decide (p.id ∈ dedupKeepFirst ids)).length
          = ((dedupKeepFirst ids).map (presentCount s.products)).sum :=
        filter_length_eq_sum_presentCount s.products _ hwf hD
      have hle1 : ((dedupKeepFirst ids).map (presentCount s.products)).sum
          ≤ (dedupKeepFirst ids).length :=
        sum_map_le_length _ _ fun x _ => presentCount_le_one s.products x
      have hle2 := length_dedupKeepFirst_le ids
      rw [hfe, hsum] at hlen
      have hDlen : (dedupKeepFirst ids).length = ids.length := by omega
      have hnd : ids.Nodup := nodup_of_dedupKeepFirst_length ids hDlen
      have hsum_eq : ((dedupKeepFirst ids).map (presentCount s.products)).sum
          = (dedupKeepFirst ids).length := by omega
      have hall := sum_map_eq_length_forces_one (presentCount s.products) _
        (fun x _ => presentCount_le_one s.products x) hsum_eq
      refine ⟨h0, hnd, fun i hi => ?_⟩
      have h1 : presentCount s.products i = 1 :=
        hall i ((mem_dedupKeepFirst ids i).mpr hi)
      exact (presentCount_eq_one_iff s.products i).mp h1
    · have hbeq : ((productsWithIds s ids).length == ids.length) = false := by
        simpa using hlen
      rw [hbeq] at h
      simp at h

/-- A duplicate-free, non-empty, fully-present id list passes the
product check. -/
theorem productCheck_eq_nil_of (s : Store) (ids : List Nat)
    (hwf : (s.products.map Product.id).Nodup) (hnd : ids.Nodup)
    (hne : ids ≠ []) (hex : ∀ i ∈ ids, ∃ p ∈ s.products, p.id = i) :
    productCheckErrors s ids = [] := by
  have hlen := filter_mem_ids_length s.products ids hwf hnd hex
  have hEmp : ids.isEmpty = false := by
    cases ids
    · exact absurd rfl hne
    · rfl
  unfold productCheckErrors
  rw [hEmp]
  simp [productsWithIds, hlen]

/-- The product check reports at most one error. -/
theorem productCheck_length_le (s : Store) (ids : List Nat) :
    (productCheckErrors s ids).length ≤ 1 := by
  unfold productCheckErrors
  split
  · simp
  · dsimp only
    split
    · simp
    · simp

/-- The customer check reports exactly one error when the customer is
missing, none otherwise. -/
theorem customerCheck_length (s : Store) (cid : Nat) :
    (customerCheckErrors s cid).length
      = if customerLookup s cid = none then 1 else 0 := by
  unfold customerCheckErrors
  cases h : customerLookup s cid <;> simp [h]

/-- The customer check passes exactly on existing customers. -/
theorem customerCheck_eq_nil_iff (s : Store) (cid : Nat) :
    customerCheckErrors s cid = [] ↔ (customerLookup s cid).isSome = true := by
  unfold customerCheckErrors
  cases h : customerLookup s cid <;> simp [h]

/-- A fully empty `CreateOrder` error list certifies every validation
rule, including duplicate-freedom of the requested id list. -/
theorem orderValidationErrors_eq_nil_implies (s : Store) (inp : OrderInput)
    (hwf : (s.products.map Product.id).Nodup)
    (h : orderValidationErrors s inp = []) :
    (customerLookup s inp.customer_id).isSome = true ∧
    inp.product_ids ≠ [] ∧ inp.product_ids.Nodup ∧
    ∀ i ∈ inp.product_ids, ∃ p ∈ s.products, p.id = i := by
  unfold orderValidationErrors at h
  rw [List.append_eq_nil] at h
  exact ⟨(customerCheck_eq_nil_iff s inp.customer_id).mp h.1,
    productCheck_eq_nil_implies s inp.product_ids hwf h.2⟩

/-- With a non-empty error list, `CreateOrder.mutate` returns the
failure envelope and leaves the store untouched. -/
theorem createOrder_mutate_failure (s : Store) (inp : OrderInput)
    (h : orderValidationErrors s inp ≠ []) :
    CreateOrder.mutate s inp
      = ({ order := none, success := false, message := "Validation failed",
           errors := orderValidationErrors s inp }, s) := by
  have hEmp : (orderValidationErrors s inp).isEmpty = false := by
    cases he : orderValidationErrors s inp
    · exact absurd he h
    · rfl
  simp [CreateOrder.mutate, hEmp]

/-! ## C2 -/

/-- C2 counterexample: for `CreateOrder(customerId=999, productIds=[10,10])`
on a store where customer 999 does not exist and product 10 does exist,
the only violated rule among the claim's three (missing customer, empty
list, missing product id) is the customer rule, so the claim predicts
exactly the single error `"Customer with ID 999 does not exist"`; the
code instead returns two errors. -/
theorem createOrder_missing_customer_duplicate_ids_two_errors :
    customerLookup storeC2dup 999 = none ∧
    ([10, 10] : List Nat) ≠ [] ∧
    (∀ i ∈ ([10, 10] : List Nat), ∃ p ∈ storeC2dup.products, p.id = i) ∧
    (CreateOrder.mutate storeC2dup { customer_id := 999, product_ids := [10, 10] }).1.errors.length = 2 ∧
    (CreateOrder.mutate storeC2dup { customer_id := 999, product_ids := [10, 10] }).1.errors
      ≠ ["Customer with ID 999 does not exist"] := by
  decide

/-- C2 (amended: the product-id list is additionally duplicate-free):
for every store with primary-key-distinct product rows and every invalid
request (missing customer, empty product list, or some missing product
id), `CreateOrder` performs no write, returns `success = false` with no
order, accumulates one error per violated rule (both rules are checked,
no short-circuit), and when only the customer rule is violated the error
list is exactly `["Customer with ID <id> does not exist"]`. -/
theorem createOrder_invalid_no_write_error_per_rule (s : Store) (inp : OrderInput)
    (hwf : (s.products.map Product.id).Nodup)
    (hnd : inp.product_ids.Nodup)
    (hinv : customerLookup s inp.customer_id = none ∨ inp.product_ids = [] ∨
      ∃ i ∈ inp.product_ids, ∀ p ∈ s.products, p.id ≠ i) :
    (CreateOrder.mutate s inp).2 = s ∧
    (CreateOrder.mutate s inp).1.success = false ∧
    (CreateOrder.mutate s inp).1.order = none ∧
    (CreateOrder.mutate s inp).1.errors.length
      = (if customerLookup s inp.customer_id = none then 1 else 0)
        + (if inp.product_ids = [] then 1
            else if ∃ i ∈ inp.product_ids, ∀ p ∈ s.products, p.id ≠ i then 1 else 0) ∧
    (customerLookup s inp.customer_id = none →
      inp.product_ids ≠ [] →
      (∀ i ∈ inp.product_ids, ∃ p ∈ s.products, p.id = i) →
      (CreateOrder.mutate s inp).1.errors
        = [customerMissingMsg inp.customer_id]) := by
  have herr : orderValidationErrors s inp ≠ [] := by
    intro h0
    obtain ⟨hc, hne, -, hex⟩ := orderValidationErrors_eq_nil_implies s inp hwf h0
    rcases hinv with h | h | ⟨i, hi, habs⟩
    · rw [h] at hc; simp at hc
    · exact hne h
    · rcases hex i hi with ⟨p, hp, hpi⟩
      exact habs p hp hpi
  rw [createOrder_mutate_failure s inp herr]
  refine ⟨rfl, rfl, rfl, ?_, ?_⟩
  · show (orderValidationErrors s inp).length = _
    unfold orderValidationErrors
    rw [List.length_append, customerCheck_length]
    congr 1
    by_cases h0 : inp.product_ids = []
    · rw [if_pos h0, h0]
      simp [productCheckErrors]
    · rw [if_neg h0]
      by_cases hmiss : ∃ i ∈ inp.product_ids, ∀ p ∈ s.products, p.id ≠ i
      · rw [if_pos hmiss]
        have hne2 : productCheckErrors s inp.product_ids ≠ [] := by
          intro hnil
          obtain ⟨-, -, hex⟩ := productCheck_eq_nil_implies s inp.product_ids hwf hnil
          rcases hmiss with ⟨i, hi, habs⟩
          rcases hex i hi with ⟨p, hp, hpi⟩
          exact habs p hp hpi
        have hle := productCheck_length_le s inp.product_ids
        have hpos : 0 < (productCheckErrors s inp.product_ids).length :=
          List.length_pos.mpr hne2
        omega
      · rw [if_neg hmiss]
        have hex : ∀ i ∈ inp.product_ids, ∃ p ∈ s.products, p.id = i := by
          intro i hi
          by_contra hno
          exact hmiss ⟨i, hi, fun p hp hpi => hno ⟨p, hp, hpi⟩⟩
        rw [productCheck_eq_nil_of s inp.product_ids hwf hnd h0 hex]
        rfl
  · intro hc hne hex
    show orderValidationErrors s inp = _
    unfold orderValidationErrors
    rw [productCheck_eq_nil_of s inp.product_ids hwf hnd hne hex]
    unfold customerCheckErrors
    rw [hc]
    rfl

/-- C2 witness: the hypotheses hold for
`CreateOrder(customerId=999, productIds=[10])` on `storeC2` (customer
999 missing, product 10 present), the theorem applies, and the resulting
envelope is the concrete one the claim's scenario requires. -/
theorem createOrder_invalid_no_write_error_per_rule_witness :
    ((storeC2.products.map Product.id).Nodup ∧
      ([10] : List Nat).Nodup ∧
      customerLookup storeC2 999 = none) ∧
    (CreateOrder.mutate storeC2 { customer_id := 999, product_ids := [10] }).2 = storeC2 ∧
    (CreateOrder.mutate storeC2 { customer_id := 999, product_ids := [10] }).1.success = false ∧
    (CreateOrder.mutate storeC2 { customer_id := 999, product_ids := [10] }).1.errors
      = ["Customer with ID 999 does not exist"] :=
  ⟨by decide,
   (createOrder_invalid_no_write_error_per_rule storeC2
      { customer_id := 999, product_ids := [10] } (by decide) (by decide)
      (Or.inl (by decide))).1,
   (createOrder_invalid_no_write_error_per_rule storeC2
      { customer_id := 999, product_ids := [10] } (by decide) (by decide)
      (Or.inl (by decide))).2.1,
   by decide⟩

/-! ## C7 -/

/-- C7: idempotence of failure.  For every store with
primary-key-distinct product rows and every invalid `CreateOrder`
request (missing customer, empty product list, or some missing product
id), the first call performs no write, and running the identical request
a second time returns exactly the same envelope — in particular the same
error set — and again leaves the store at its initial state. -/
theorem createOrder_failure_idempotent (s : Store) (inp : OrderInput)
    (hwf : (s.products.map Product.id).Nodup)
    (hinv : customerLookup s inp.customer_id = none ∨ inp.product_ids = [] ∨
      ∃ i ∈ inp.product_ids, ∀ p ∈ s.products, p.id ≠ i) :
    (CreateOrder.mutate s inp).2 = s ∧
    (CreateOrder.mutate s inp).1.success = false ∧
    (CreateOrder.mutate (CreateOrder.mutate s inp).2 inp).1
      = (CreateOrder.mutate s inp).1 ∧
    (CreateOrder.mutate (CreateOrder.mutate s inp).2 inp).2 = s := by
  have herr : orderValidationErrors s inp ≠ [] := by
    intro h0
    obtain ⟨hc, hne, -, hex⟩ := orderValidationErrors_eq_nil_implies s inp hwf h0
    rcases hinv with h | h | ⟨i, hi, habs⟩
    · rw [h] at hc; simp at hc
    · exact hne h
    · rcases hex i hi with ⟨p, hp, hpi⟩
      exact habs p hp hpi
  have hfail := createOrder_mutate_failure s inp herr
  rw [hfail]
  exact ⟨rfl, rfl, by rw [hfail], by rw [hfail]⟩

/-- C7 witness: the empty store with the empty product list is an
invalid request; applying the theorem shows both runs agree and leave
the store unchanged. -/
theorem createOrder_failure_idempotent_witness :
    ((storeC7.products.map Product.id).Nodup ∧
      customerLookup storeC7 1 = none ∧
      (([] : List Nat) = [] ∨ True)) ∧
    (CreateOrder.mutate storeC7 { customer_id := 1, product_ids := [] }).2 = storeC7 ∧
    (CreateOrder.mutate (CreateOrder.mutate storeC7 { customer_id := 1, product_ids := [] }).2
        { customer_id := 1, product_ids := [] }).1
      = (CreateOrder.mutate storeC7 { customer_id := 1, product_ids := [] }).1 :=
  ⟨by decide,
   (createOrder_failure_idempotent storeC7 { customer_id := 1, product_ids := [] }
      (by decide) (Or.inr (Or.inl rfl))).1,
   (createOrder_failure_idempotent storeC7 { customer_id := 1, product_ids := [] }
      (by decide) (Or.inr (Or.inl rfl))).2.2.1⟩

/-! ## C4 -/

/-- C4: the code run on the failing inputs.  Reusing the existing email
(and, separately, supplying the malformed phone `"12345"`) does return
`success = false` and creates no row, but the returned envelope's
`errors` field is `none` (null): the validation-failure branch of this
copy of `CreateCustomer.mutate` never passes the computed error list, so
the envelope does not carry the uniqueness/format failure. -/
theorem createCustomer_failure_errors_null_eval :
    (storeC4.customers.map Customer.email) = ["dup@example.com"] ∧
    (CreateCustomer.mutate storeC4 { name := "New", email := "dup@example.com", phone := none }).1.success = false ∧
    (CreateCustomer.mutate storeC4 { name := "New", email := "dup@example.com", phone := none }).1.customer = none ∧
    (CreateCustomer.mutate storeC4 { name := "New", email := "dup@example.com", phone := none }).2 = storeC4 ∧
    (CreateCustomer.mutate storeC4 { name := "New", email := "dup@example.com", phone := none }).1.errors = none ∧
    (CreateCustomer.mutate storeC4 { name := "Phо", email := "fresh@example.com", phone := some "12345" }).1.success = false ∧
    (CreateCustomer.mutate storeC4 { name := "Phо", email := "fresh@example.com", phone := some "12345" }).1.errors = none ∧
    (CreateCustomer.mutate storeC4 { name := "Phо", email := "fresh@example.com", phone := some "12345" }).2 = storeC4 := by
  decide

/-! ## C5 -/

/-- C5 counterexample: with three inputs whose second reuses an existing
email, the bulk mutation does create exactly two customers with one
error and `success_count = 2`, but the error is labeled
`"Customer 2: ..."`, not `"item 2: ..."` as the claim's label format
states. -/
theorem bulkCreate_label_not_item_form :
    (BulkCreateCustomers.mutate storeC5 [
        { name := "A", email := "a5@example.com", phone := none },
        { name := "B", email := "used@example.com", phone := none },
        { name := "C", email := "c5@example.com", phone := none }]).1.customers.length = 2 ∧
    (BulkCreateCustomers.mutate storeC5 [
        { name := "A", email := "a5@example.com", phone := none },
        { name := "B", email := "used@example.com", phone := none },
        { name := "C", email := "c5@example.com", phone := none }]).1.success_count = 2 ∧
    (BulkCreateCustomers.mutate storeC5 [
        { name := "A", email := "a5@example.com", phone := none },
        { name := "B", email := "used@example.com", phone := none },
        { name := "C", email := "c5@example.com", phone := none }]).1.errors
      = ["Customer 2: Email used@example.com already exists"] ∧
    ("Customer 2: Email used@example.com already exists").take 5 ≠ "item " := by
  decide

/-- C5 (amended: the per-item error label is
`"Customer <i>: <reason>"` with a 1-based index, not
`"item <i>: <reason>"`): items are processed independently with
partial-success semantics — each valid item is created immediately and
each invalid item appends one labeled error and processing continues;
for 3 inputs whose second reuses an existing email the result has
exactly 2 created customers, exactly 1 error referencing item 2, and
`success_count = 2`. -/
theorem bulkCreate_partial_success_scenario (s : Store) (i1 i2 i3 : CustomerInput)
    (h1 : s.customers.any (fun c => c.email == i1.email) = false)
    (h2 : s.customers.any (fun c => c.email == i2.email) = true)
    (h3 : s.customers.any (fun c => c.email == i3.email) = false)
    (h13 : i3.email ≠ i1.email)
    (hp1 : i1.phone = none) (hp3 : i3.phone = none) :
    (BulkCreateCustomers.mutate s [i1, i2, i3]).1.customers.length = 2 ∧
    (BulkCreateCustomers.mutate s [i1, i2, i3]).1.success_count = 2 ∧
    (BulkCreateCustomers.mutate s [i1, i2, i3]).1.errors = [bulkEmailErr 1 i2.email] ∧
    (BulkCreateCustomers.mutate s [i1, i2, i3]).1.customers
      = [newCustomerRow s i1,
         newCustomerRow (addCustomerRow s (newCustomerRow s i1)) i3] := by
  have hb : ((newCustomerRow s i1).email == i3.email) = false := by
    unfold newCustomerRow
    exact beq_eq_false_iff_ne.mpr fun h => h13 h.symm
  have h2app : (addCustomerRow s (newCustomerRow s i1)).customers.any
      (fun c => c.email == i2.email) = true := by
    unfold addCustomerRow
    simp [List.any_append, h2]
  have h3app : (addCustomerRow s (newCustomerRow s i1)).customers.any
      (fun c => c.email == i3.email) = false := by
    unfold addCustomerRow
    simp [List.any_append, h3, hb]
  simp [BulkCreateCustomers.mutate, BulkCreateCustomers.go, h1, h2app, h3app,
    bulkPhoneBad, phoneTruthy, hp1, hp3]

/-- C5 witness: the hypotheses hold for the 3-input scenario on
`storeC5`, the theorem applies, and the single error names item 2. -/
theorem bulkCreate_partial_success_scenario_witness :
    (storeC5.customers.any (fun c => c.email == "a5w@example.com") = false ∧
      storeC5.customers.any (fun c => c.email == "used@example.com") = true ∧
      storeC5.customers.any (fun c => c.email == "c5w@example.com") = false) ∧
    (BulkCreateCustomers.mutate storeC5 [
        { name := "A", email := "a5w@example.com", phone := none },
        { name := "B", email := "used@example.com", phone := none },
        { name := "C", email := "c5w@example.com", phone := none }]).1.customers.length = 2 ∧
    (BulkCreateCustomers.mutate storeC5 [
        { name := "A", email := "a5w@example.com", phone := none },
        { name := "B", email := "used@example.com", phone := none },
        { name := "C", email := "c5w@example.com", phone := none }]).1.success_count = 2 ∧
    (BulkCreateCustomers.mutate storeC5 [
        { name := "A", email := "a5w@example.com", phone := none },
        { name := "B", email := "used@example.com", phone := none },
        { name := "C", email := "c5w@example.com", phone := none }]).1.errors
      = ["Customer 2: Email used@example.com already exists"] :=
  ⟨by decide,
   (bulkCreate_partial_success_scenario storeC5
      { name := "A", email := "a5w@example.com", phone := none }
      { name := "B", email := "used@example.com", phone := none }
      { name := "C", email := "c5w@example.com", phone := none }
      (by decide) (by decide) (by decide) (by decide) rfl rfl).1,
   (bulkCreate_partial_success_scenario storeC5
      { name := "A", email := "a5w@example.com", phone := none }
      { name := "B", email := "used@example.com", phone := none }
      { name := "C", email := "c5w@example.com", phone := none }
      (by decide) (by decide) (by decide) (by decide) rfl rfl).2.1,
   by decide⟩

/-- The `CreateProduct` validation block passes exactly when the price
is positive and the stock, if given, is non-negative. -/
theorem productValidationErrors_eq_nil_iff (inp : ProductInput) :
    productValidationErrors inp = [] ↔
      (0 < inp.price ∧ ∀ st ∈ inp.stock, 0 ≤ st) := by
  unfold productValidationErrors
  cases hst : inp.stock with
  | none =>
    by_cases hp : inp.price ≤ 0 <;> (simp [hp]; try omega)
  | some st =>
    by_cases hp : inp.price ≤ 0 <;> by_cases hs : st < 0 <;>
      (simp [hp, hs]; try omega)

/-- The `CreateProduct` validation block accumulates one error per
violated rule (both checks always run). -/
theorem productValidationErrors_length (inp : ProductInput) :
    (productValidationErrors inp).length
      = (if inp.price ≤ 0 then 1 else 0)
        + (if ∃ st ∈ inp.stock, st < 0 then 1 else 0) := by
  unfold productValidationErrors
  cases hst : inp.stock with
  | none =>
    by_cases hp : inp.price ≤ 0 <;> simp [hp]
  | some st =>
    by_cases hp : inp.price ≤ 0 <;> by_cases hs : st < 0 <;> simp [hp, hs]

/-! ## C6 -/

/-- C6: `CreateProduct` validates price positivity and stock
non-negativity (absent stock is fine), aggregates all failures instead
of stopping at the first, and either creates and returns the product on
an empty failure list — with stock defaulting to 0 when absent — or
returns a structured failure with no mutation. -/
theorem createProduct_validation_spec (s : Store) (inp : ProductInput) :
    ((CreateProduct.mutate s inp).1.success = true ↔
      (0 < inp.price ∧ ∀ st ∈ inp.stock, 0 ≤ st)) ∧
    (CreateProduct.mutate s inp).1.errors.length
      = (if inp.price ≤ 0 then 1 else 0)
        + (if ∃ st ∈ inp.stock, st < 0 then 1 else 0) ∧
    ((CreateProduct.mutate s inp).1.success = true →
      (CreateProduct.mutate s inp).1.product = some (newProductRow s inp) ∧
      (newProductRow s inp).stock = inp.stock.getD 0 ∧
      (CreateProduct.mutate s inp).2.products = s.products ++ [newProductRow s inp]) ∧
    ((CreateProduct.mutate s inp).1.success = false →
      (CreateProduct.mutate s inp).1.product = none ∧
      (CreateProduct.mutate s inp).2 = s) := by
  have herrs : (CreateProduct.mutate s inp).1.errors = productValidationErrors inp := by
    by_cases h : (productValidationErrors inp).isEmpty
    · have h0 : productValidationErrors inp = [] := by
        cases he : productValidationErrors inp
        · rfl
        · rw [he] at h; simp at h
      simp [CreateProduct.mutate, h, h0]
    · simp [CreateProduct.mutate, h]
  by_cases h : (productValidationErrors inp).isEmpty
  · have h0 : productValidationErrors inp = [] := by
      cases he : productValidationErrors inp
      · rfl
      · rw [he] at h; simp at h
    have hok := (productValidationErrors_eq_nil_iff inp).mp h0
    have hsucc : (CreateProduct.mutate s inp).1.success = true := by
      simp [CreateProduct.mutate, h]
    refine ⟨⟨fun _ => hok, fun _ => hsucc⟩, ?_, ?_, ?_⟩
    · rw [herrs, productValidationErrors_length]
    · intro _
      refine ⟨?_, rfl, ?_⟩
      · simp [CreateProduct.mutate, h]
      · simp [CreateProduct.mutate, h]
    · intro hfail
      rw [hsucc] at hfail
      simp at hfail
  · have hfail : (CreateProduct.mutate s inp).1.success = false := by
      simp [CreateProduct.mutate, h]
    have hne : productValidationErrors inp ≠ [] := by
      intro h0; rw [h0] at h; simp at h
    refine ⟨⟨?_, ?_⟩, ?_, ?_, ?_⟩
    · intro hs; rw [hfail] at hs; simp at hs
    · intro hok
      exact absurd ((productValidationErrors_eq_nil_iff inp).mpr hok) hne
    · rw [herrs, productValidationErrors_length]
    · intro hs; rw [hfail] at hs; simp at hs
    · intro _
      constructor
      · simp [CreateProduct.mutate, h]
      · simp [CreateProduct.mutate, h]

/-- C6 witness: a valid concrete input succeeds (via the theorem) with
stock defaulting to 0, and an invalid one accumulates both errors. -/
theorem createProduct_validation_spec_witness :
    (CreateProduct.mutate storeC8 { name := "P", price := 500, stock := none, description := none }).1.success = true ∧
    (CreateProduct.mutate storeC8 { name := "P", price := 500, stock := none, description := none }).1.product
      = some { id := 1, name := "P", price := 500, stock := 0, description := "" } ∧
    (CreateProduct.mutate storeC8 { name := "Q", price := -5, stock := some (-2), description := none }).1.errors
      = ["Price must be positive", "Stock cannot be negative"] :=
  ⟨(createProduct_validation_spec storeC8
      { name := "P", price := 500, stock := none, description := none }).1.mpr
      (by decide),
   by decide,
   by decide⟩

/-! ## C8 -/

/-- C8: envelope consistency.  For every store and every input, each of
`CreateCustomer`, `CreateProduct` and `CreateOrder` returns an envelope
whose `success` flag equals the presence of the created entity, and a
successful envelope carries an empty error list. -/
theorem mutation_envelope_consistency (s : Store) (ic : CustomerInput)
    (ip : ProductInput) (io : OrderInput) :
    (CreateCustomer.mutate s ic).1.success
      = (CreateCustomer.mutate s ic).1.customer.isSome ∧
    ((CreateCustomer.mutate s ic).1.success = true →
      (CreateCustomer.mutate s ic).1.errors = some []) ∧
    (CreateProduct.mutate s ip).1.success
      = (CreateProduct.mutate s ip).1.product.isSome ∧
    ((CreateProduct.mutate s ip).1.success = true →
      (CreateProduct.mutate s ip).1.errors = []) ∧
    (CreateOrder.mutate s io).1.success
      = (CreateOrder.mutate s io).1.order.isSome ∧
    ((CreateOrder.mutate s io).1.success = true →
      (CreateOrder.mutate s io).1.errors = []) := by
  refine ⟨?_, ?_, ?_, ?_, ?_, ?_⟩
  · by_cases h : (customerValidationErrors s ic).isEmpty <;>
      simp [CreateCustomer.mutate, h]
  · by_cases h : (customerValidationErrors s ic).isEmpty <;>
      simp [CreateCustomer.mutate, h]
  · by_cases h : (productValidationErrors ip).isEmpty <;>
      simp [CreateProduct.mutate, h]
  · by_cases h : (productValidationErrors ip).isEmpty <;>
      simp [CreateProduct.mutate, h]
  · by_cases h : (orderValidationErrors s io).isEmpty
    · cases hc : customerLookup s io.customer_id <;>
        simp [CreateOrder.mutate, h, hc]
    · simp [CreateOrder.mutate, h]
  · by_cases h : (orderValidationErrors s io).isEmpty
    · cases hc : customerLookup s io.customer_id <;>
        simp [CreateOrder.mutate, h, hc]
    · simp [CreateOrder.mutate, h]

/-- C8 witness: the theorem applied at a concrete store and inputs. -/
theorem mutation_envelope_consistency_witness :
    (CreateCustomer.mutate storeC8 { name := "W", email := "w@example.com", phone := none }).1.success
      = (CreateCustomer.mutate storeC8 { name := "W", email := "w@example.com", phone := none }).1.customer.isSome ∧
    (CreateOrder.mutate storeC8 { customer_id := 1, product_ids := [] }).1.success
      = (CreateOrder.mutate storeC8 { customer_id := 1, product_ids := [] }).1.order.isSome :=
  ⟨(mutation_envelope_consistency storeC8
      { name := "W", email := "w@example.com", phone := none }
      { name := "P", price := 1, stock := none, description := none }
      { customer_id := 1, product_ids := [] }).1,
   (mutation_envelope_consistency storeC8
      { name := "W", email := "w@example.com", phone := none }
      { name := "P", price := 1, stock := none, description := none }
      { customer_id := 1, product_ids := [] }).2.2.2.2.1⟩

/-! ## C9 -/

/-- Each iteration of the bulk loop contributes exactly one outcome:
a created customer or a labeled error. -/
theorem bulkGo_accounting (input : List CustomerInput) : ∀ (s : Store) (i : Nat),
    (BulkCreateCustomers.go s i input).1.length
      + (BulkCreateCustomers.go s i input).2.1.length = input.length := by
  induction input with
  | nil => intro s i; simp [BulkCreateCustomers.go]
  | cons cd rest ih =>
    intro s i
    by_cases h1 : s.customers.any (fun c => c.email == cd.email)
    · have := ih s (i + 1)
      simp only [BulkCreateCustomers.go, h1, if_true, List.length_cons]
      omega
    · by_cases h2 : bulkPhoneBad cd.phone
      · have := ih s (i + 1)
        simp only [BulkCreateCustomers.go, h1, h2, if_true, if_false,
          Bool.false_eq_true, List.length_cons]
        omega
      · have := ih (addCustomerRow s (newCustomerRow s cd)) (i + 1)
        simp only [BulkCreateCustomers.go, h1, h2, if_false,
          Bool.false_eq_true, List.length_cons]
        omega

/-- C9: bulk accounting invariant.  Every input item gets exactly one
outcome, so created customers plus errors equal the input length, and
`success_count` is the number of created customers. -/
theorem bulkCreate_accounting (s : Store) (input : List CustomerInput) :
    (BulkCreateCustomers.mutate s input).1.customers.length
      + (BulkCreateCustomers.mutate s input).1.errors.length = input.length ∧
    (BulkCreateCustomers.mutate s input).1.success_count
      = (BulkCreateCustomers.mutate s input).1.customers.length := by
  exact ⟨bulkGo_accounting input s 0, rfl⟩

/-! ## C10 -/

/-- C10 counterexample: on a duplicate email the two copies of
`CreateCustomer.mutate` return different envelopes — the `schema.py`
copy leaves `errors` null while the `tests.py` copy returns the error
list. -/
theorem createCustomer_copies_differ_on_failure :
    (CreateCustomer.mutate storeC10 { name := "X", email := "ten@example.com", phone := none }).1
      ≠ (CreateCustomerTests.mutate storeC10 { name := "X", email := "ten@example.com", phone := none }).1 ∧
    (CreateCustomer.mutate storeC10 { name := "X", email := "ten@example.com", phone := none }).1.errors = none ∧
    (CreateCustomerTests.mutate storeC10 { name := "X", email := "ten@example.com", phone := none }).1.errors
      = some ["Email already exists"] := by
  decide

/-- C10 (amended: equality of envelopes holds for the store effect and
for the `customer`, `success` and `message` fields on every input, and
for the `errors` field whenever the mutation succeeds; on the
validation-failure branch the `schema.py` copy leaves `errors` null
while the `tests.py` copy carries the error list). -/
theorem createCustomer_copies_agree (s : Store) (input : CustomerInput) :
    (CreateCustomer.mutate s input).2 = (CreateCustomerTests.mutate s input).2 ∧
    (CreateCustomer.mutate s input).1.customer
      = (CreateCustomerTests.mutate s input).1.customer ∧
    (CreateCustomer.mutate s input).1.success
      = (CreateCustomerTests.mutate s input).1.success ∧
    (CreateCustomer.mutate s input).1.message
      = (CreateCustomerTests.mutate s input).1.message ∧
    ((CreateCustomer.mutate s input).1.success = true →
      (CreateCustomer.mutate s input).1.errors
        = (CreateCustomerTests.mutate s input).1.errors) := by
  by_cases h : (customerValidationErrors s input).isEmpty <;>
    simp [CreateCustomer.mutate, CreateCustomerTests.mutate, h]

/-- C10 witness: the theorem applied at a concrete store and input. -/
theorem createCustomer_copies_agree_witness :
    (CreateCustomer.mutate storeC10 { name := "Y", email := "y@example.com", phone := none }).2
      = (CreateCustomerTests.mutate storeC10 { name := "Y", email := "y@example.com", phone := none }).2 ∧
    (CreateCustomer.mutate storeC10 { name := "Y", email := "y@example.com", phone := none }).1.success
      = (CreateCustomerTests.mutate storeC10 { name := "Y", email := "y@example.com", phone := none }).1.success :=
  ⟨(createCustomer_copies_agree storeC10
      { name := "Y", email := "y@example.com", phone := none }).1,
   (createCustomer_copies_agree storeC10
      { name := "Y", email := "y@example.com", phone := none }).2.2.1⟩
